import Mathlib

/-!
Verification of the job-tracking, retention and format-selection logic of
`src/app.py` (a Flask video-download API).  The Python module keeps two
module-level dictionaries, `downloads_in_progress` and `completed_downloads`,
keyed by a string download id; a background cleanup thread sweeps old files
and old completed entries; request handlers validate input, spawn background
downloads, poll status, and serve files.  We embed the registry operations and
the relevant straight-line handler fragments as pure Lean functions over
explicit state, and prove or refute the specification's claims about them.

Conventions of the embedding:
* Python dicts keyed by download id become association lists
  (`Table α := List (String × α)`) with insertion-order semantics matching
  CPython dicts: assignment to an existing key updates in place, assignment to
  a fresh key appends, `pop` removes the entry.
* Python floats used for progress percentages and timestamps become `Rat`
  (progress) and `Int` (`time.time()` values); the comparisons performed by
  the code (`now - mtime > 7200`) are order-isomorphic to the Python ones.
* Fallible calls (e.g. `os.path.getmtime`, `os.remove`) are modelled as
  `Except String` results carried in the input data, so that a "raises" branch
  of the source is an explicit `.error` case.
-/

namespace YtApi

/-- Association-list model of a Python dict keyed by strings
(`downloads_in_progress`, `completed_downloads`). -/
abbrev Table (α : Type) := List (String × α)

namespace Table

/-- Lookup `d[k]`: first binding of `k`. -/
def lookup {α : Type} (t : Table α) (k : String) : Option α :=
  (t.find? (fun p => p.1 == k)).map (fun p => p.2)

/-- Membership test `k in d`. -/
def contains {α : Type} (t : Table α) (k : String) : Bool :=
  t.any (fun p => p.1 == k)

/-- Assignment `d[k] = v`: update in place if present, else append
(CPython dict order). -/
def insert {α : Type} (t : Table α) (k : String) (v : α) : Table α :=
  match t with
  | [] => [(k, v)]
  | p :: rest => if p.1 == k then (k, v) :: rest else p :: insert rest k v

/-- Removal `d.pop(k)` / `d.pop(k, None)`: drop the binding of `k`. -/
def pop {α : Type} (t : Table α) (k : String) : Table α :=
  t.filter (fun p => p.1 != k)

theorem lookup_insert {α : Type} (t : Table α) (k : String) (v : α) :
    (t.insert k v).lookup k = some v := by
  induction t with
  | nil => simp [insert, lookup, List.find?]
  | cons p rest ih =>
    by_cases h : p.1 = k
    · simp [insert, h, lookup, List.find?]
    · have hb : (p.1 == k) = false := by simp [h]
      simp only [insert, hb, if_false]
      simpa [lookup, List.find?, hb] using ih

theorem lookup_pop {α : Type} (t : Table α) (k : String) :
    (t.pop k).lookup k = none := by
  induction t with
  | nil => simp [pop, lookup]
  | cons p rest ih =>
    by_cases h : p.1 = k
    · simpa [pop, h] using ih
    · have hb : (p.1 == k) = false := by simp [h]
      simp only [pop, List.filter]
      simp only [bne, hb, Bool.not_false]
      simp only [lookup, List.find?, hb] at ih ⊢
      exact ih

theorem contains_insert {α : Type} (t : Table α) (k : String) (v : α) :
    (t.insert k v).contains k = true := by
  induction t with
  | nil => simp [insert, contains]
  | cons p rest ih =>
    by_cases h : p.1 = k
    · simp [insert, h, contains]
    · have hb : (p.1 == k) = false := by simp [h]
      simp only [insert, hb, if_false]
      simpa [contains, hb] using ih

theorem contains_pop {α : Type} (t : Table α) (k : String) :
    (t.pop k).contains k = false := by
  induction t with
  | nil => simp [pop, contains]
  | cons p rest ih =>
    by_cases h : p.1 = k
    · simpa [pop, h] using ih
    · have hb : (p.1 == k) = false := by simp [h]
      simp only [pop, List.filter]
      simp only [bne, hb, Bool.not_false]
      simp only [contains, List.any_cons, hb, Bool.false_or] at ih ⊢
      exact ih

end Table

/-- Value stored in `downloads_in_progress` (`process_download` line 254,
`direct_download` line 502): `{"status", "progress", "url", "start_time"}`. -/
structure InProgressInfo where
  status : String
  progress : Rat
  url : String
  start_time : Int
  deriving Repr, DecidableEq

/-- Value stored in `completed_downloads`.  The success write in
`process_download` (line 320) sets `status/url/file_path/download_url/
completion_time`; the failure write (line 330) sets `status/url/error/
completion_time`; `direct_download` (line 556) sets
`status/url/file_path/completion_time`.  Keys a given write omits are `none`.
`completion_time` is `Option` because the sweeper reads it with
`info.get("completion_time", 0)`. -/
structure CompletedInfo where
  status : String
  url : String
  file_path : Option String
  download_url : Option String
  error : Option String
  completion_time : Option Int
  deriving Repr, DecidableEq

/-- The two module-level dictionaries (lines 35-36). -/
structure Registry where
  downloads_in_progress : Table InProgressInfo
  completed_downloads : Table CompletedInfo
  deriving Repr, DecidableEq

def Registry.inFlight (r : Registry) (id : String) : Bool :=
  r.downloads_in_progress.contains id

def Registry.inCompleted (r : Registry) (id : String) : Bool :=
  r.completed_downloads.contains id

/-- The handle is in exactly one of the two tables. -/
def Registry.inExactlyOne (r : Registry) (id : String) : Bool :=
  r.inFlight id ^^ r.inCompleted id

/-- Relative part of the download directory path
`os.path.join(os.getcwd(), "downloads")` (line 21). -/
def DOWNLOAD_FOLDER : String := "downloads"

/-- Python truthiness of an optional string query parameter: `None` and the
empty string are falsy; used for `if not url:`, `if format_id:`,
`if audio_id:`, `if custom_filename ...`. -/
def truthy (s : Option String) : Bool :=
  match s with
  | some str => str != ""
  | none => false

/-- Base yt-dlp options returned by `get_base_ydl_opts` (lines 67-101).
Header values elided to their keys are irrelevant to every claim; `age_limit`
is set to Python `None`, hence the `Option`. -/
structure YdlOpts where
  quiet : Bool
  no_warnings : Bool
  ignoreerrors : Bool
  proxy : String
  socket_timeout : Int
  retries : Nat
  nocheckcertificate : Bool
  geo_bypass : Bool
  prefer_insecure : Bool
  http_headers : List String
  extract_flat : Bool
  writesubtitles : Bool
  writeautomaticsub : Bool
  age_limit : Option Int
  deriving Repr, DecidableEq

def get_base_ydl_opts : YdlOpts :=
  { quiet := true
    no_warnings := true
    ignoreerrors := true
    proxy := "scraperapi:d32b11d359813d5ed5c519bfbdec6f23@proxy-server.scraperapi.com:8001"
    socket_timeout := 30
    retries := 3
    nocheckcertificate := true
    geo_bypass := true
    prefer_insecure := true
    http_headers :=
      ["User-Agent", "Accept", "Accept-Language", "Accept-Encoding", "DNT",
       "Connection", "Upgrade-Insecure-Requests", "Sec-Fetch-Dest",
       "Sec-Fetch-Mode", "Sec-Fetch-Site", "Sec-Fetch-User", "Cache-Control"]
    extract_flat := false
    writesubtitles := false
    writeautomaticsub := false
    age_limit := none }

/-- Exception handler of `get_video_info` (lines 212-214): every exception
`e`, timeouts included, is rendered as HTTP 500 with body
`{"error": str(e)}`. -/
def get_video_info_exception_response (e : String) : Nat × String := (500, e)

/-- Model of the dictionary `d` that the extractor passes to a progress hook:
its `status` string plus the parsed value of `_percent_str`.  `percent` is
`some p` when `float(d.get("_percent_str", "0%").replace("%", ""))` succeeds
on a value that is present and not `"N/A"`; it is `none` when the key is
missing/falsy, equals `"N/A"`, or parsing raises (the source swallows
`ValueError`/`AttributeError`, leaving the stored progress unchanged). -/
structure HookEvent where
  status : String
  percent : Option Rat
  deriving Repr, DecidableEq

/-- Progress hook `update_progress` (lines 391-403) acting on
`downloads_in_progress`. -/
def update_progress (t : Table InProgressInfo) (download_id : String)
    (d : HookEvent) : Table InProgressInfo :=
  match t.lookup download_id with
  | none => t
  | some info =>
    if d.status == "downloading" then
      match d.percent with
      | some p => t.insert download_id { info with progress := p }
      | none => t
    else if d.status == "finished" then
      t.insert download_id { info with status := "processing", progress := 100 }
    else t

/-- Successive progress-hook invocations for one handle, applied in order. -/
def run_progress_events (t : Table InProgressInfo) (download_id : String)
    (events : List HookEvent) : Table InProgressInfo :=
  events.foldl (fun acc d => update_progress acc download_id d) t

/-- One entry of `info.get("formats", [])` as consulted by `direct_download`
(lines 522-527): only `format_id` and `acodec` are read, each with `.get`
(hence `Option`). -/
structure FormatInfo where
  format_id : Option String
  acodec : Option String
  deriving Repr, DecidableEq

/-- Probe branch of `direct_download` (lines 518-532), reached when no
companion audio id was supplied: an `extract_info(url, download=False)` call
fetches the format list, the requested format is looked up, and only a
variant whose `acodec` is the string `"none"` is paired with `bestaudio`. -/
def direct_probe_selector (format_id : String) (formats : List FormatInfo) : String :=
  match formats.find? (fun fmt => fmt.format_id == some format_id) with
  | some target_format =>
    if target_format.acodec == some "none" then format_id ++ "+bestaudio"
    else format_id
  | none => format_id

/-- Format selector composed by `direct_download` (lines 514-532). -/
def direct_download_format_selector (format_id : String) (audio_id : Option String)
    (formats : List FormatInfo) : String :=
  if truthy audio_id then format_id ++ "+" ++ audio_id.getD ""
  else direct_probe_selector format_id formats

/-- Download strategy chosen by `process_download` (lines 272-317) from the
request parameters: separate per-format downloads merged by ffmpeg when both
ids are given, otherwise a single yt-dlp format selector. -/
inductive ProcessFormatChoice where
  | separateMerge (video_format audio_format : String)
  | selector (fmt : String)
  deriving Repr, DecidableEq

def process_download_format_choice (format_id audio_id : Option String) :
    ProcessFormatChoice :=
  if truthy format_id then
    if truthy audio_id then
      .separateMerge (format_id.getD "") (audio_id.getD "")
    else .selector (format_id.getD "" ++ "+bestaudio/best")
  else .selector "bestvideo+bestaudio/best"

/-- Arguments handed to the background thread spawned by `download_video`
(lines 239-244). -/
structure SpawnedTask where
  download_id : String
  url : String
  format_id : Option String
  audio_id : Option String
  deriving Repr, DecidableEq

/-- Result of the `/api/download` handler (lines 216-250): either the early
400 rejection (issued before any handle is allocated or thread spawned - the
constructor carries neither), or the accepted response together with the
spawned task. -/
inductive DownloadVideoResult where
  | badRequest (httpStatus : Nat) (error : String)
  | started (download_id : String) (task : SpawnedTask)
      (bodyStatus bodyMessage : String)
  deriving Repr, DecidableEq

/-- Handler `download_video` (lines 216-250).  `fresh_id` stands for the
`uuid.uuid4()` value that would be allocated at line 236. -/
def download_video (url format_id audio_id : Option String)
    (fresh_id : String) : DownloadVideoResult :=
  if truthy url then
    .started fresh_id
      { download_id := fresh_id, url := url.getD "",
        format_id := format_id, audio_id := audio_id }
      "processing"
      "Download started. Check status using the /api/download-status endpoint."
  else .badRequest 400 "Missing video URL"

/-- Result of the validation step at the top of `get_video_info`
(lines 137-139):
either the early 400 rejection or a fall-through into the extractor call. -/
inductive VideoInfoResult where
  | badRequest (httpStatus : Nat) (error : String)
  | callsExtractor (url : String)
  deriving Repr, DecidableEq

def get_video_info_validate (url : Option String) : VideoInfoResult :=
  if truthy url then .callsExtractor (url.getD "")
  else .badRequest 400 "Missing video URL"

/-- JSON body returned by `/api/download-status/<id>` (lines 405-441),
reduced to the fields it carries; `download_url`/`error` appear in the
terminal response only when the completed entry holds those keys. -/
inductive StatusResponse where
  | inProgress (download_id status : String) (progress : Rat) (url : String)
  | terminal (download_id status url : String)
      (download_url : Option String) (error : Option String)
  | notFound (httpStatus : Nat) (error : String)
  deriving Repr, DecidableEq

/-- Handler `check_download_status` (lines 405-441): in-flight table first,
then completed table, else 404. -/
def check_download_status (reg : Registry) (download_id : String) :
    StatusResponse :=
  match reg.downloads_in_progress.lookup download_id with
  | some info => .inProgress download_id info.status info.progress info.url
  | none =>
    match reg.completed_downloads.lookup download_id with
    | some info =>
      .terminal download_id info.status info.url info.download_url info.error
    | none => .notFound 404 "Download ID not found"

/-- Outcome of the body of `process_download`'s `try` block (lines 261-326):
either every step returned, or some step raised an exception rendered by
`str(e)` as `msg`. -/
inductive DownloadOutcome where
  | success
  | raises (msg : String)
  deriving Repr, DecidableEq

/-- Terminal entry written by `process_download` into `completed_downloads`:
the success record of lines 320-326, or the failure record of lines 330-335
with `error = str(e)`. -/
def process_download_terminal (download_id url : String) (t_end : Int) :
    DownloadOutcome → CompletedInfo
  | .success =>
    { status := "completed", url := url,
      file_path := some (DOWNLOAD_FOLDER ++ "/" ++ download_id ++ ".mp4"),
      download_url := some ("/api/get-file/" ++ download_id),
      error := none, completion_time := some t_end }
  | .raises msg =>
    { status := "failed", url := url, file_path := none, download_url := none,
      error := some msg, completion_time := some t_end }

/-- Registry states of one asynchronous download job, in program order:
`[reg, r1, r2, r3]` where `reg` is the state right after `download_video`
allocates the handle and spawns the thread (lines 236-244, before
`process_download` has run its first statement), `r1` is the state after the
in-flight insert (lines 254-259), `r2` after the terminal write into
`completed_downloads` (line 320 on success, line 330 on failure), and `r3`
after the `finally`-block pop from `downloads_in_progress` (lines 337-340). -/
def background_job_states (reg : Registry) (download_id url : String)
    (t0 t_end : Int) (outcome : DownloadOutcome) : List Registry :=
  let initial_entry : InProgressInfo :=
    { status := "downloading", progress := 0, url := url, start_time := t0 }
  let t1 := reg.downloads_in_progress.insert download_id initial_entry
  let r1 : Registry := { reg with downloads_in_progress := t1 }
  let terminal_entry := process_download_terminal download_id url t_end outcome
  let t2 := r1.completed_downloads.insert download_id terminal_entry
  let r2 : Registry := { r1 with completed_downloads := t2 }
  let t3 := r2.downloads_in_progress.pop download_id
  let r3 : Registry := { r2 with downloads_in_progress := t3 }
  [reg, r1, r2, r3]

/-- Registry state once `process_download` has returned (the last state of
`background_job_states`). -/
def process_download_final (reg : Registry) (download_id url : String)
    (t0 t_end : Int) (outcome : DownloadOutcome) : Registry :=
  (background_job_states reg download_id url t0 t_end outcome).getLastD reg

/-- Deterministic cache filename built by `direct_download` (lines 484-488)
from the `(video_id, format_id, audio_id)` triple. -/
def direct_cache_filename (video_id format_id : String)
    (audio_id : Option String) : String :=
  video_id ++ "_" ++ format_id ++
    (if truthy audio_id then "_" ++ audio_id.getD "" else "") ++ ".mp4"

/-- Outcome of the cache check at the top of `direct_download`. -/
inductive DirectPhase where
  | cachedFile (path download_name : String)
  | proceed (output_path : String)
  deriving Repr, DecidableEq

/-- Cache check of `direct_download` (lines 484-495): when the
deterministically named artifact already exists on disk it is served
immediately - the extractor is never invoked (the `cachedFile` constructor
is returned before any yt-dlp call in the source).  Otherwise the handler
proceeds, downloading into exactly that path (`outtmpl` at line 511). -/
def direct_download_cache_check (existing_files : List String)
    (video_id format_id : String) (audio_id custom_filename : Option String) :
    DirectPhase :=
  let output_path :=
    DOWNLOAD_FOLDER ++ "/" ++ direct_cache_filename video_id format_id audio_id
  if existing_files.contains output_path then
    .cachedFile output_path
      (if truthy custom_filename then custom_filename.getD ""
       else video_id ++ ".mp4")
  else .proceed output_path

/-- HTTP result of `direct_download`, reduced to the two shapes the tail of
the handler can produce. -/
inductive DirectResponse where
  | fileAttachment (path download_name : String)
  | jsonError (httpStatus : Nat) (error : String)
  deriving Repr, DecidableEq

/-- Tail of `direct_download` once the extraction call has returned without
raising (lines 552-571): the handle is popped from the in-flight table and a
`status="completed"` record is inserted into `completed_downloads` BEFORE the
on-disk check; only then does `find_downloaded_file` decide between serving
the file and the 500 "file not found" response.  `file_found` abstracts that
check; `download_name` is the attachment name computed at lines 543-550. -/
def direct_download_after_extraction (reg : Registry)
    (download_id url output_path download_name : String) (t_end : Int)
    (file_found : Bool) : Registry × DirectResponse :=
  let popped := reg.downloads_in_progress.pop download_id
  let reg1 : Registry := { reg with downloads_in_progress := popped }
  let completed_entry : CompletedInfo :=
    { status := "completed", url := url, file_path := some output_path,
      download_url := none, error := none, completion_time := some t_end }
  let inserted := reg1.completed_downloads.insert download_id completed_entry
  let reg2 : Registry := { reg1 with completed_downloads := inserted }
  if file_found then (reg2, .fileAttachment output_path download_name)
  else (reg2, .jsonError 500 "Download failed - file not found")

instance {ε α : Type} [DecidableEq ε] [DecidableEq α] :
    DecidableEq (Except ε α) := fun a b =>
  match a, b with
  | .error e, .error f =>
    if h : e = f then .isTrue (by rw [h])
    else .isFalse (by intro hh; cases hh; exact h rfl)
  | .error _, .ok _ => .isFalse (by intro hh; cases hh)
  | .ok _, .error _ => .isFalse (by intro hh; cases hh)
  | .ok x, .ok y =>
    if h : x = y then .isTrue (by rw [h])
    else .isFalse (by intro hh; cases hh; exact h rfl)

/-- One directory entry as seen by the sweeper, with the outcomes of the two
fallible filesystem calls carried as data: `mtime` is the result of
`os.path.getmtime` (an `OSError` when `.error`), `remove_result` that of
`os.remove`. -/
structure FileEntry where
  path : String
  is_file : Bool
  mtime : Except String Int
  remove_result : Except String Unit
  deriving Repr, DecidableEq

/-- One iteration of the sweeper's file loop (lines 45-50).  The `try` block
wraps ONLY `os.remove`; `os.path.getmtime` is evaluated in the `if` condition
outside it, so its exception escapes (`Except.error`).  On `.ok`, the bool
says whether the file was removed. -/
def sweep_file_step (now : Int) (f : FileEntry) : Except String Bool :=
  if f.is_file then
    match f.mtime with
    | .error e => .error e
    | .ok m =>
      if now - m > 7200 then
        match f.remove_result with
        | .ok _ => .ok true
        | .error _ => .ok false
      else .ok false
  else .ok false

/-- The per-folder loop of the sweeper (lines 44-50): the entries remaining
after the pass, or the exception that escaped the loop body. -/
def sweep_folder (now : Int) : List FileEntry → Except String (List FileEntry)
  | [] => .ok []
  | f :: rest =>
    match sweep_file_step now f with
    | .error e => .error e
    | .ok removed =>
      match sweep_folder now rest with
      | .error e => .error e
      | .ok rest_remaining =>
        .ok (if removed then rest_remaining else f :: rest_remaining)

/-- The completed-table sweep (lines 52-59): entries whose
`info.get("completion_time", 0)` is more than 7200 seconds old are collected
into `to_remove` and popped; the net effect is this filter. -/
def sweep_completed (now : Int) (t : Table CompletedInfo) :
    Table CompletedInfo :=
  t.filter (fun p => !(decide (now - p.2.completion_time.getD 0 > 7200)))

/-- One full iteration of the `while True:` body of `cleanup_old_files`
(lines 41-59), over the two folders and the registry.  `.error e` means an
exception escaped the body; nothing outside the body catches it, so the
sweeper thread terminates. -/
def cleanup_pass (now : Int) (download_files temp_files : List FileEntry)
    (reg : Registry) :
    Except String (List FileEntry × List FileEntry × Registry) :=
  match sweep_folder now download_files with
  | .error e => .error e
  | .ok d_remaining =>
    match sweep_folder now temp_files with
    | .error e => .error e
    | .ok t_remaining =>
      let swept := sweep_completed now reg.completed_downloads
      .ok (d_remaining, t_remaining, { reg with completed_downloads := swept })

/-- Whether an `Except`-modelled call returned normally; used to phrase
"this filesystem call did not raise" hypotheses decidably. -/
def exceptOk {ε α : Type} (x : Except ε α) : Bool :=
  match x with
  | .ok _ => true
  | .error _ => false

/-- The deletion condition of the file sweep (line 46): a regular file whose
last-modified age exceeds 7200 seconds (when the mtime could be read). -/
def should_delete (now : Int) (f : FileEntry) : Bool :=
  f.is_file &&
    (match f.mtime with
     | .ok m => decide (now - m > 7200)
     | .error _ => false)

section Lemmas

theorem sweep_file_step_isOk (now : Int) (f : FileEntry)
    (hm : exceptOk f.mtime = true) : ∃ b, sweep_file_step now f = .ok b := by
  cases hmt : f.mtime with
  | error e => rw [hmt] at hm; simp [exceptOk] at hm
  | ok m =>
    simp only [sweep_file_step, hmt]
    by_cases hf : f.is_file = true
    · simp only [hf, if_true]
      by_cases hage : now - m > 7200
      · simp only [hage, if_true]
        cases hrr : f.remove_result with
        | error e => exact ⟨false, by simp⟩
        | ok u => exact ⟨true, by simp⟩
      · exact ⟨false, by simp [hage]⟩
    · exact ⟨false, by simp [hf]⟩

theorem sweep_file_step_eq (now : Int) (f : FileEntry)
    (hm : exceptOk f.mtime = true) (hr : f.remove_result = .ok ()) :
    sweep_file_step now f = .ok (should_delete now f) := by
  cases hmt : f.mtime with
  | error e => rw [hmt] at hm; simp [exceptOk] at hm
  | ok m =>
    simp only [sweep_file_step, should_delete, hmt, hr]
    by_cases hf : f.is_file = true
    · simp only [hf, if_true, Bool.true_and]
      by_cases hage : now - m > 7200
      · simp [hage]
      · simp [hage]
    · have hf2 : f.is_file = false := by
        cases hfi : f.is_file
        · rfl
        · exact absurd hfi hf
      simp [hf2]

theorem sweep_folder_isOk (now : Int) (files : List FileEntry)
    (hm : ∀ f ∈ files, exceptOk f.mtime = true) :
    ∃ rem, sweep_folder now files = .ok rem := by
  induction files with
  | nil => exact ⟨[], rfl⟩
  | cons f rest ih =>
    obtain ⟨b, hb⟩ := sweep_file_step_isOk now f (hm f (List.mem_cons_self f rest))
    obtain ⟨rem, hrem⟩ := ih (fun g hg => hm g (List.mem_cons_of_mem f hg))
    exact ⟨if b then rem else f :: rem, by simp [sweep_folder, hb, hrem]⟩

theorem sweep_folder_eq (now : Int) (files : List FileEntry)
    (hm : ∀ f ∈ files, exceptOk f.mtime = true)
    (hr : ∀ f ∈ files, f.remove_result = .ok ()) :
    sweep_folder now files =
      .ok (files.filter (fun f => !should_delete now f)) := by
  induction files with
  | nil => rfl
  | cons f rest ih =>
    have h1 : sweep_file_step now f = .ok (should_delete now f) :=
      sweep_file_step_eq now f (hm f (List.mem_cons_self f rest))
        (hr f (List.mem_cons_self f rest))
    have h2 := ih (fun g hg => hm g (List.mem_cons_of_mem f hg))
      (fun g hg => hr g (List.mem_cons_of_mem f hg))
    simp only [sweep_folder, h1, h2, List.filter]
    cases hsd : should_delete now f <;> simp

end Lemmas

/-- C1 counterexample: running a background job to completion on an empty
registry, the registry state reached right after the terminal write
(line 320) but before the `finally` pop (line 340) holds the handle in BOTH
tables, so it is not the case that every state between creation and
reclamation has the handle in exactly one table. -/
theorem C1_both_tables_counterexample :
    ¬ ∀ s ∈ background_job_states ⟨[], []⟩ "h" "u" 0 10 .success,
        s.inExactlyOne "h" = true := by
  decide

/-- C1 (amended): between handle allocation (line 236) and the background
task's in-flight insert (line 254) the handle is in neither table, and
between the terminal write (line 320/330) and the `finally` pop (line 340)
it is in both; at the remaining program points between creation and
reclamation it is in exactly one table (in-flight while downloading,
completed afterwards). -/
theorem C1_membership_window_theorem (reg : Registry) (download_id url : String)
    (t0 t_end : Int) (o : DownloadOutcome)
    (h1 : reg.inFlight download_id = false)
    (h2 : reg.inCompleted download_id = false) :
    ∃ r1 r2 r3,
      background_job_states reg download_id url t0 t_end o = [reg, r1, r2, r3] ∧
      (reg.inFlight download_id = false ∧ reg.inCompleted download_id = false) ∧
      (r1.inFlight download_id = true ∧ r1.inCompleted download_id = false) ∧
      (r2.inFlight download_id = true ∧ r2.inCompleted download_id = true) ∧
      (r3.inFlight download_id = false ∧ r3.inCompleted download_id = true) := by
  refine ⟨_, _, _, rfl, ⟨h1, h2⟩, ⟨?_, ?_⟩, ⟨?_, ?_⟩, ⟨?_, ?_⟩⟩
  · simp [Registry.inFlight, Table.contains_insert]
  · simpa [Registry.inCompleted] using h2
  · simp [Registry.inFlight, Table.contains_insert]
  · simp [Registry.inCompleted, Table.contains_insert]
  · simp [Registry.inFlight, Table.contains_pop]
  · simp [Registry.inCompleted, Table.contains_insert]

/-- Witness for C1 (amended) at a concrete fresh handle on the empty
registry. -/
theorem C1_membership_window_witness :
    Registry.inFlight ⟨[], []⟩ "h" = false ∧
    Registry.inCompleted ⟨[], []⟩ "h" = false ∧
    (∃ r1 r2 r3,
      background_job_states ⟨[], []⟩ "h" "u" 0 10 .success =
        [⟨[], []⟩, r1, r2, r3] ∧
      (Registry.inFlight ⟨[], []⟩ "h" = false ∧
        Registry.inCompleted ⟨[], []⟩ "h" = false) ∧
      (r1.inFlight "h" = true ∧ r1.inCompleted "h" = false) ∧
      (r2.inFlight "h" = true ∧ r2.inCompleted "h" = true) ∧
      (r3.inFlight "h" = false ∧ r3.inCompleted "h" = true)) :=
  ⟨by decide, by decide,
    C1_membership_window_theorem ⟨[], []⟩ "h" "u" 0 10 .success
      (by decide) (by decide)⟩

/-- C2 counterexample: the synchronous `get_video_info` handler maps a
timed-out extractor call to the same HTTP status 500 as a generic failure
(lines 212-214) - there is no status distinct from the generic 500 for
timeouts. -/
theorem C2_timeout_status_counterexample :
    (get_video_info_exception_response "The read operation timed out").1 =
      (get_video_info_exception_response "generic extraction failure").1 ∧
    (get_video_info_exception_response "The read operation timed out").1 =
      500 :=
  ⟨rfl, rfl⟩

/-- C2 (amended): the only timeout the gateway configures is the 30-second
`socket_timeout` in the base yt-dlp options (a per-socket-operation bound,
not a wall-clock budget on the whole call), and every exception in the
synchronous handler - timeouts included - is mapped uniformly to HTTP 500
with the exception text as the error body; a failed background job records
the raw exception text, which contains "timed out" only when the underlying
exception message does. -/
theorem C2_socket_timeout_and_uniform_500 :
    get_base_ydl_opts.socket_timeout = 30 ∧
    ∀ e : String, get_video_info_exception_response e = (500, e) :=
  ⟨rfl, fun _ => rfl⟩

/-- C3 counterexample: with the job in-flight at progress 0, the hook events
"downloading 50%" then "downloading 30%" leave progress at 30 - the stored
progress DECREASED across successive invocations while the state was
`downloading`; moreover after a `finished` event (state leaves `downloading`
for `processing`, progress pinned 100) a further "downloading 20%" event
overwrites progress to 20 ≠ 100. -/
theorem C3_progress_not_monotone_counterexample :
    (¬ ∀ (pre post : InProgressInfo),
        (run_progress_events [("h", ⟨"downloading", 0, "u", 0⟩)] "h"
            [⟨"downloading", some 50⟩]).lookup "h" = some pre →
        (run_progress_events [("h", ⟨"downloading", 0, "u", 0⟩)] "h"
            [⟨"downloading", some 50⟩, ⟨"downloading", some 30⟩]).lookup "h" =
          some post →
        pre.progress ≤ post.progress) ∧
    (run_progress_events [("h", ⟨"downloading", 0, "u", 0⟩)] "h"
        [⟨"downloading", some 50⟩, ⟨"finished", none⟩,
         ⟨"downloading", some 20⟩]).lookup "h" =
      some ⟨"processing", 20, "u", 0⟩ := by
  constructor
  · intro hall
    have h := hall ⟨"downloading", 50, "u", 0⟩ ⟨"downloading", 30, "u", 0⟩
      (by decide) (by decide)
    norm_num at h
  · decide

/-- C3 (amended): `update_progress` overwrites the stored progress with each
reported percentage, performing no monotonicity check (the overwrite happens
whatever the job's current status); a `finished` event transitions the entry
to `processing` with progress pinned to 100, but a subsequent `downloading`
event overwrites progress again even though the state has left
`downloading`. -/
theorem C3_progress_overwrite_theorem (t : Table InProgressInfo) (id : String)
    (info : InProgressInfo) (p : Rat) (h : t.lookup id = some info) :
    (update_progress t id ⟨"downloading", some p⟩).lookup id =
      some { info with progress := p } ∧
    (update_progress t id ⟨"finished", none⟩).lookup id =
      some { info with status := "processing", progress := 100 } := by
  have hne : (("finished" : String) == "downloading") = false := by decide
  have heq : (("finished" : String) == "finished") = true := by decide
  constructor
  · simp only [update_progress, h]
    simp [Table.lookup_insert]
  · simp only [update_progress, h, hne, heq]
    simp [Table.lookup_insert]

/-- Witness for C3 (amended) at a concrete in-flight entry. -/
theorem C3_progress_overwrite_witness :
    (Table.lookup [("h", (⟨"downloading", 0, "u", 0⟩ : InProgressInfo))] "h" =
      some ⟨"downloading", 0, "u", 0⟩) ∧
    ((update_progress [("h", ⟨"downloading", 0, "u", 0⟩)] "h"
        ⟨"downloading", some 42⟩).lookup "h" =
      some { (⟨"downloading", 0, "u", 0⟩ : InProgressInfo) with
              progress := 42 } ∧
     (update_progress [("h", ⟨"downloading", 0, "u", 0⟩)] "h"
        ⟨"finished", none⟩).lookup "h" =
      some { (⟨"downloading", 0, "u", 0⟩ : InProgressInfo) with
              status := "processing", progress := 100 }) :=
  ⟨by decide,
    C3_progress_overwrite_theorem [("h", ⟨"downloading", 0, "u", 0⟩)] "h"
      ⟨"downloading", 0, "u", 0⟩ 42 (by decide)⟩

/-- C4 counterexample: for a request naming variant "18" whose format entry
carries audio (`acodec = "mp4a.40.2"`) and no companion audio id, the
direct-download handler does request the variant alone, but the asynchronous
`process_download` path (lines 288-293) composes "18+bestaudio/best" without
ever probing whether the variant carries audio - so the claim fails for
download requests served by `/api/download`. -/
theorem C4_async_no_probe_counterexample :
    direct_download_format_selector "18" none
      [⟨some "18", some "mp4a.40.2"⟩] = "18" ∧
    process_download_format_choice (some "18") none =
      .selector "18+bestaudio/best" ∧
    ProcessFormatChoice.selector "18+bestaudio/best" ≠
      ProcessFormatChoice.selector "18" := by
  refine ⟨by decide, by decide, by decide⟩

/-- C4 (amended): only the direct-download handler probes whether the
requested variant carries audio - pairing it with `bestaudio` exactly when
the probed `acodec` is the string "none" and requesting it alone otherwise -
while the asynchronous download path composes `format_id+bestaudio/best`
unconditionally, without any probe. -/
theorem C4_selector_policy_theorem (format_id : String)
    (formats : List FormatInfo) (tf : FormatInfo) (hfid : format_id ≠ "")
    (hfind : formats.find? (fun fmt => fmt.format_id == some format_id) =
      some tf) :
    (tf.acodec = some "none" →
      direct_download_format_selector format_id none formats =
        format_id ++ "+bestaudio") ∧
    (tf.acodec ≠ some "none" →
      direct_download_format_selector format_id none formats = format_id) ∧
    process_download_format_choice (some format_id) none =
      .selector (format_id ++ "+bestaudio/best") := by
  refine ⟨?_, ?_, ?_⟩
  · intro hac
    simp [direct_download_format_selector, truthy, direct_probe_selector,
      hfind, hac]
  · intro hac
    have hb : (tf.acodec == some "none") = false := beq_eq_false_iff_ne.mpr hac
    simp [direct_download_format_selector, truthy, direct_probe_selector,
      hfind, hb]
  · simp [process_download_format_choice, truthy, hfid]

/-- Witness for C4 (amended) on a one-entry format list whose variant is
video-only. -/
theorem C4_selector_policy_witness :
    ("137" : String) ≠ "" ∧
    List.find? (fun fmt => fmt.format_id == some "137")
      [(⟨some "137", some "none"⟩ : FormatInfo)] =
      some ⟨some "137", some "none"⟩ ∧
    (((⟨some "137", some "none"⟩ : FormatInfo).acodec = some "none" →
      direct_download_format_selector "137" none
        [⟨some "137", some "none"⟩] = "137" ++ "+bestaudio") ∧
     ((⟨some "137", some "none"⟩ : FormatInfo).acodec ≠ some "none" →
      direct_download_format_selector "137" none
        [⟨some "137", some "none"⟩] = "137") ∧
     process_download_format_choice (some "137") none =
      .selector ("137" ++ "+bestaudio/best")) :=
  ⟨by decide, by decide,
    C4_selector_policy_theorem "137" [⟨some "137", some "none"⟩]
      ⟨some "137", some "none"⟩ (by decide) (by decide)⟩

/-- C5 counterexample: a single directory entry whose `os.path.getmtime`
raises (the file vanished between `listdir` and the age check) makes the
sweep body raise - the `try` at lines 47-50 only wraps `os.remove`, so the
exception escapes the loop and the sweeper thread terminates, refuting
"every exception arising while scanning or deleting files is caught inside
the loop". -/
theorem C5_scan_exception_escapes_counterexample :
    cleanup_pass 10000
      [⟨"downloads/ghost.mp4", true,
        .error "getmtime: No such file or directory", .ok ()⟩]
      [] ⟨[], []⟩ =
      .error "getmtime: No such file or directory" := rfl

/-- C5 (amended): only failures of the deletion call itself (`os.remove`)
are caught and logged inside the loop; provided every `os.path.getmtime`
call during the scan returns normally, the sweep pass completes (reaching
the next sleep) no matter how many deletions fail, but a scanning exception
escapes and terminates the loop. -/
theorem C5_remove_failures_contained_theorem (now : Int)
    (dfiles tfiles : List FileEntry) (reg : Registry)
    (hd : ∀ f ∈ dfiles, exceptOk f.mtime = true)
    (ht : ∀ f ∈ tfiles, exceptOk f.mtime = true) :
    ∃ out, cleanup_pass now dfiles tfiles reg = .ok out := by
  obtain ⟨d_rem, hd_rem⟩ := sweep_folder_isOk now dfiles hd
  obtain ⟨t_rem, ht_rem⟩ := sweep_folder_isOk now tfiles ht
  refine ⟨(d_rem, t_rem,
    { reg with completed_downloads :=
        sweep_completed now reg.completed_downloads }), ?_⟩
  simp [cleanup_pass, hd_rem, ht_rem]

/-- Witness for C5 (amended): a stale file whose deletion fails with a
permission error still lets the pass complete. -/
theorem C5_remove_failures_contained_witness :
    (∀ f ∈ [(⟨"downloads/locked.mp4", true, .ok 0,
        .error "Permission denied"⟩ : FileEntry)],
      exceptOk f.mtime = true) ∧
    (∀ f ∈ ([] : List FileEntry), exceptOk f.mtime = true) ∧
    ∃ out, cleanup_pass 10000
      [⟨"downloads/locked.mp4", true, .ok 0, .error "Permission denied"⟩]
      [] ⟨[], []⟩ = .ok out :=
  ⟨by decide, by decide,
    C5_remove_failures_contained_theorem 10000
      [⟨"downloads/locked.mp4", true, .ok 0, .error "Permission denied"⟩]
      [] ⟨[], []⟩ (by decide) (by decide)⟩

/-- C6: when the filesystem calls of a sweep pass all return normally, the
pass deletes exactly the regular files whose last-modified age exceeds 7200
seconds, evicts exactly the completed-table entries whose completion time is
more than 7200 seconds old, and never touches the in-flight table. -/
theorem C6_retention_sweep_exact_theorem (now : Int)
    (dfiles tfiles : List FileEntry) (reg : Registry)
    (hdm : ∀ f ∈ dfiles, exceptOk f.mtime = true)
    (hdr : ∀ f ∈ dfiles, f.remove_result = .ok ())
    (htm : ∀ f ∈ tfiles, exceptOk f.mtime = true)
    (htr : ∀ f ∈ tfiles, f.remove_result = .ok ()) :
    ∃ reg2,
      cleanup_pass now dfiles tfiles reg =
        .ok (dfiles.filter (fun f => !should_delete now f),
             tfiles.filter (fun f => !should_delete now f), reg2) ∧
      reg2.downloads_in_progress = reg.downloads_in_progress ∧
      (∀ p ∈ reg.completed_downloads, ∀ ct : Int,
        p.2.completion_time = some ct →
        (p ∈ reg2.completed_downloads ↔ ¬ now - ct > 7200)) ∧
      (∀ f ∈ dfiles, ∀ m : Int, f.mtime = .ok m →
        (f ∈ dfiles.filter (fun g => !should_delete now g) ↔
          ¬ (f.is_file = true ∧ now - m > 7200))) ∧
      (∀ f ∈ tfiles, ∀ m : Int, f.mtime = .ok m →
        (f ∈ tfiles.filter (fun g => !should_delete now g) ↔
          ¬ (f.is_file = true ∧ now - m > 7200))) := by
  have hd_eq := sweep_folder_eq now dfiles hdm hdr
  have ht_eq := sweep_folder_eq now tfiles htm htr
  refine ⟨{ reg with completed_downloads :=
      sweep_completed now reg.completed_downloads },
    by simp [cleanup_pass, hd_eq, ht_eq], rfl, ?_, ?_, ?_⟩
  · intro p hp ct hct
    simp only [sweep_completed, List.mem_filter, hct, Option.getD_some]
    constructor
    · rintro ⟨-, hkeep⟩
      simpa using hkeep
    · intro hyoung
      exact ⟨hp, by simpa using hyoung⟩
  · intro f hf m hm
    simp only [List.mem_filter]
    constructor
    · rintro ⟨-, hkeep⟩
      simp only [should_delete, hm, Bool.not_eq_true', Bool.and_eq_false_iff] at hkeep
      rintro ⟨hfile, hage⟩
      rcases hkeep with hkeep | hkeep
      · rw [hfile] at hkeep; cases hkeep
      · simp [hage] at hkeep
    · intro hkeep
      refine ⟨hf, ?_⟩
      simp only [should_delete, hm, Bool.not_eq_true', Bool.and_eq_false_iff]
      by_cases hfile : f.is_file = true
      · right
        have : ¬ now - m > 7200 := fun hage => hkeep ⟨hfile, hage⟩
        simpa using this
      · left
        simpa using hfile
  · intro f hf m hm
    simp only [List.mem_filter]
    constructor
    · rintro ⟨-, hkeep⟩
      simp only [should_delete, hm, Bool.not_eq_true', Bool.and_eq_false_iff] at hkeep
      rintro ⟨hfile, hage⟩
      rcases hkeep with hkeep | hkeep
      · rw [hfile] at hkeep; cases hkeep
      · simp [hage] at hkeep
    · intro hkeep
      refine ⟨hf, ?_⟩
      simp only [should_delete, hm, Bool.not_eq_true', Bool.and_eq_false_iff]
      by_cases hfile : f.is_file = true
      · right
        have : ¬ now - m > 7200 := fun hage => hkeep ⟨hfile, hage⟩
        simpa using this
      · left
        simpa using hfile

/-- Witness for C6 on a concrete pass at `now = 10000`: one stale and one
fresh file, one stale and one fresh completed entry, one in-flight job. -/
theorem C6_retention_sweep_exact_witness :
    (∀ f ∈ [(⟨"downloads/old.mp4", true, .ok 0, .ok ()⟩ : FileEntry),
            ⟨"downloads/new.mp4", true, .ok 9000, .ok ()⟩],
      exceptOk f.mtime = true) ∧
    (∀ f ∈ [(⟨"downloads/old.mp4", true, .ok 0, .ok ()⟩ : FileEntry),
            ⟨"downloads/new.mp4", true, .ok 9000, .ok ()⟩],
      f.remove_result = .ok ()) ∧
    (∀ f ∈ ([] : List FileEntry), exceptOk f.mtime = true) ∧
    (∀ f ∈ ([] : List FileEntry), f.remove_result = .ok ()) ∧
    (∃ reg2,
      cleanup_pass 10000
          [⟨"downloads/old.mp4", true, .ok 0, .ok ()⟩,
           ⟨"downloads/new.mp4", true, .ok 9000, .ok ()⟩]
          []
          ⟨[("h", ⟨"downloading", 0, "u", 9500⟩)],
           [("old", ⟨"completed", "u", some "downloads/old.mp4",
              some "/api/get-file/old", none, some 100⟩),
            ("new", ⟨"completed", "u", some "downloads/new.mp4",
              some "/api/get-file/new", none, some 9000⟩)]⟩ =
        .ok (List.filter (fun f => !should_delete 10000 f)
              [⟨"downloads/old.mp4", true, .ok 0, .ok ()⟩,
               ⟨"downloads/new.mp4", true, .ok 9000, .ok ()⟩],
             List.filter (fun f => !should_delete 10000 f) [],
             reg2) ∧
      reg2.downloads_in_progress =
        Registry.downloads_in_progress
          ⟨[("h", ⟨"downloading", 0, "u", 9500⟩)],
           [("old", ⟨"completed", "u", some "downloads/old.mp4",
              some "/api/get-file/old", none, some 100⟩),
            ("new", ⟨"completed", "u", some "downloads/new.mp4",
              some "/api/get-file/new", none, some 9000⟩)]⟩ ∧
      (∀ p ∈ Registry.completed_downloads
          ⟨[("h", ⟨"downloading", 0, "u", 9500⟩)],
           [("old", ⟨"completed", "u", some "downloads/old.mp4",
              some "/api/get-file/old", none, some 100⟩),
            ("new", ⟨"completed", "u", some "downloads/new.mp4",
              some "/api/get-file/new", none, some 9000⟩)]⟩,
        ∀ ct : Int, p.2.completion_time = some ct →
        (p ∈ reg2.completed_downloads ↔ ¬ (10000 : Int) - ct > 7200)) ∧
      (∀ f ∈ [(⟨"downloads/old.mp4", true, .ok 0, .ok ()⟩ : FileEntry),
              ⟨"downloads/new.mp4", true, .ok 9000, .ok ()⟩],
        ∀ m : Int, f.mtime = .ok m →
        (f ∈ List.filter (fun g => !should_delete 10000 g)
            [(⟨"downloads/old.mp4", true, .ok 0, .ok ()⟩ : FileEntry),
             ⟨"downloads/new.mp4", true, .ok 9000, .ok ()⟩] ↔
          ¬ (f.is_file = true ∧ (10000 : Int) - m > 7200))) ∧
      (∀ f ∈ ([] : List FileEntry), ∀ m : Int, f.mtime = .ok m →
        (f ∈ List.filter (fun g => !should_delete 10000 g)
            ([] : List FileEntry) ↔
          ¬ (f.is_file = true ∧ (10000 : Int) - m > 7200)))) :=
  ⟨by decide, by decide, by decide, by decide,
    C6_retention_sweep_exact_theorem 10000
      [⟨"downloads/old.mp4", true, .ok 0, .ok ()⟩,
       ⟨"downloads/new.mp4", true, .ok 9000, .ok ()⟩]
      []
      ⟨[("h", ⟨"downloading", 0, "u", 9500⟩)],
       [("old", ⟨"completed", "u", some "downloads/old.mp4",
          some "/api/get-file/old", none, some 100⟩),
        ("new", ⟨"completed", "u", some "downloads/new.mp4",
          some "/api/get-file/new", none, some 9000⟩)]⟩
      (by decide) (by decide) (by decide) (by decide)⟩

/-- C7: every error raised inside a background download task is recorded as
that job's terminal `failed` entry carrying the exception text, and the
handle is removed from the in-flight table; the embedding of
`process_download` is a total function into `Registry`, reflecting that the
`except Exception` at line 328 lets no error escape the task. -/
theorem C7_background_error_captured (reg : Registry)
    (download_id url : String) (t0 t_end : Int) (msg : String) :
    (process_download_final reg download_id url t0 t_end
        (.raises msg)).completed_downloads.lookup download_id =
      some { status := "failed", url := url, file_path := none,
             download_url := none, error := some msg,
             completion_time := some t_end } ∧
    (process_download_final reg download_id url t0 t_end
        (.raises msg)).downloads_in_progress.lookup download_id = none := by
  constructor
  · simp [process_download_final, background_job_states,
      process_download_terminal, Table.lookup_insert]
  · simp [process_download_final, background_job_states, Table.lookup_pop]

/-- C8: two direct-download requests for the same
`(video_id, format_id, audio_id)` triple resolve to the same
deterministically named artifact path; the first (cache miss) proceeds to
download into exactly that path, and the second - issued once the artifact
is on disk - is served from the cache without the handler reaching any
extractor call. -/
theorem C8_direct_cache_hit_theorem (fs1 fs2 : List String)
    (video_id format_id : String) (audio_id cf1 cf2 : Option String)
    (hmiss : fs1.contains (DOWNLOAD_FOLDER ++ "/" ++
      direct_cache_filename video_id format_id audio_id) = false)
    (hhit : fs2.contains (DOWNLOAD_FOLDER ++ "/" ++
      direct_cache_filename video_id format_id audio_id) = true) :
    direct_download_cache_check fs1 video_id format_id audio_id cf1 =
      .proceed (DOWNLOAD_FOLDER ++ "/" ++
        direct_cache_filename video_id format_id audio_id) ∧
    direct_download_cache_check fs2 video_id format_id audio_id cf2 =
      .cachedFile
        (DOWNLOAD_FOLDER ++ "/" ++
          direct_cache_filename video_id format_id audio_id)
        (if truthy cf2 then cf2.getD "" else video_id ++ ".mp4") := by
  have hm : (DOWNLOAD_FOLDER ++ "/" ++
      direct_cache_filename video_id format_id audio_id) ∉ fs1 := by
    simpa using hmiss
  have hh : (DOWNLOAD_FOLDER ++ "/" ++
      direct_cache_filename video_id format_id audio_id) ∈ fs2 := by
    simpa using hhit
  constructor
  · simp [direct_download_cache_check, hm]
  · simp [direct_download_cache_check, hh]

/-- Witness for C8 on the triple `("abc", "137", "140")` with the artifact
present for the second request only. -/
theorem C8_direct_cache_hit_witness :
    List.contains ([] : List String) (DOWNLOAD_FOLDER ++ "/" ++
      direct_cache_filename "abc" "137" (some "140")) = false ∧
    List.contains ["downloads/abc_137_140.mp4"] (DOWNLOAD_FOLDER ++ "/" ++
      direct_cache_filename "abc" "137" (some "140")) = true ∧
    (direct_download_cache_check [] "abc" "137" (some "140") none =
      .proceed (DOWNLOAD_FOLDER ++ "/" ++
        direct_cache_filename "abc" "137" (some "140")) ∧
     direct_download_cache_check ["downloads/abc_137_140.mp4"]
        "abc" "137" (some "140") none =
      .cachedFile
        (DOWNLOAD_FOLDER ++ "/" ++
          direct_cache_filename "abc" "137" (some "140"))
        (if truthy none then Option.getD none "" else "abc" ++ ".mp4")) :=
  ⟨by decide, by decide,
    C8_direct_cache_hit_theorem [] ["downloads/abc_137_140.mp4"]
      "abc" "137" (some "140") none none (by decide) (by decide)⟩

/-- C9: when the extraction call of `direct_download` returns without
raising but the output file is missing, the handler has already inserted a
`status="completed"` record for its internal handle (lines 556-561) before
the file check, so alongside the 500 "Download failed - file not found"
response, a status poll on that handle reports state `completed`. -/
theorem C9_completed_recorded_before_file_check (reg : Registry)
    (download_id url output_path download_name : String) (t_end : Int) :
    (direct_download_after_extraction reg download_id url output_path
        download_name t_end false).2 =
      .jsonError 500 "Download failed - file not found" ∧
    check_download_status
      (direct_download_after_extraction reg download_id url output_path
        download_name t_end false).1 download_id =
      .terminal download_id "completed" url none none := by
  constructor
  · rfl
  · simp [direct_download_after_extraction, check_download_status,
      Table.lookup_pop, Table.lookup_insert]

/-- C10: a request to `/api/video-info` or `/api/download` whose `url`
parameter is absent or empty is answered 400 `{"error": "Missing video URL"}`
by the check at the top of the handler; the `badRequest` constructor is
produced before the `uuid4` allocation and thread spawn at lines 236-244 and
carries neither a handle nor a spawned task. -/
theorem C10_missing_url_rejected (url format_id audio_id : Option String)
    (fresh_id : String) (h : url = none ∨ url = some "") :
    download_video url format_id audio_id fresh_id =
      .badRequest 400 "Missing video URL" ∧
    get_video_info_validate url = .badRequest 400 "Missing video URL" := by
  rcases h with h | h <;> subst h <;> exact ⟨rfl, rfl⟩

/-- Witness for C10 with an empty `url` query parameter. -/
theorem C10_missing_url_rejected_witness :
    ((some "" : Option String) = none ∨ (some "" : Option String) = some "") ∧
    (download_video (some "") none none "h" =
      .badRequest 400 "Missing video URL" ∧
     get_video_info_validate (some "") =
      .badRequest 400 "Missing video URL") :=
  ⟨Or.inr rfl, C10_missing_url_rejected (some "") none none "h" (Or.inr rfl)⟩

end YtApi
